import Mathlib

/-!
Shallow embedding of the TamaBotchi desktop-pet overlay shell:
the conversation data model, the `ConversationCard` click/summarize handlers,
the `SummaryPanel` reconcile (`loadConversations`), the Electron main-process
window registry (`createSummaryWindow` / `closeSummaryWindow` / toggle), the
optional `window.electronAPI` capability bridge, the `BunnyPet` badge poll
(`pollUnread`), and the `NotificationBadge` renderer.

Conventions of the embedding:
- JS numbers that hold epoch seconds or counts are modelled as `Int`.
- An async handler is modelled by its synchronous segment (the code that runs
  up to the first `await`, single-threaded run-to-completion) together with
  the trace of requests it issues, or — when the whole async run matters — by
  a function from the remote call's outcome to the resulting state.
- `await`ing a call to completion is recorded in a trace as
  `Ev.complete`; a fire-and-forget call only ever records `Ev.issue`.
- JS `x || d` default-reads of a possibly-missing JSON field are modelled on
  `Option`, with `0` falsy for numbers and every array (even `[]`) truthy.
- `Array.prototype.sort(cmp)` is modelled as a comparison sort
  (`List.insertionSort`) over the relation induced by the comparator.
-/

namespace TamaBotchi

/-- The `Summary` record returned by `POST /pet/conversations/{id}/summarize`
(interface `Summary` in `ConversationCard.tsx` / `SummaryPanel.tsx`). -/
structure Summary where
  who : String
  intent : String
  requirements : List String
  urgency : String
  sentiment : String
  action_items : List String
  one_liner : String
deriving DecidableEq, Repr

/-- A message inside a conversation (interface `Message`); the TS field
`from` is spelled `msgFrom` because `from` is reserved in Lean. -/
structure Message where
  msgFrom : String
  text : String
  timestamp : Int
deriving DecidableEq, Repr

/-- A conversation as served by the remote store (interface `Conversation`). -/
structure Conversation where
  sender : String
  conversation_id : String
  started_at : Int
  last_activity : Int
  messages : List Message
  read : Bool
  summary : Option Summary
deriving DecidableEq, Repr

/-- The React state of one `ConversationCard`: `summary`, `loading`,
`expanded` (`useState` triple in `ConversationCard.tsx`). -/
structure CardState where
  summary : Option Summary
  loading : Bool
  expanded : Bool
deriving DecidableEq, Repr

/-- Initial card state: `useState(conversation.summary)`, `useState(false)`,
`useState(false)`. -/
def initCardState (c : Conversation) : CardState :=
  { summary := c.summary, loading := false, expanded := false }

/-- The remote calls a UI handler can issue (functions of `middleware/api`),
plus the reconcile fetch. -/
inductive ApiCall
  | summarizeConv
  | markRead
  | markAllRead
  | summarizeAllCall
  | fetchConversations
deriving DecidableEq, Repr

/-- Trace events: a request being issued, and an issued request being awaited
to completion before the handler continues. -/
inductive Ev
  | issue (c : ApiCall)
  | complete (c : ApiCall)
deriving DecidableEq, Repr

/-- Synchronous segment of `handleClick` in `ConversationCard.tsx`:
`if (!summary) handleSummarize() else setExpanded(!expanded);
if (!conversation.read) { markConversationRead(id); onRead() }`.
`handleSummarize()` is not awaited, so only its own synchronous prefix runs
(`setLoading(true)` and issuing the summarize request); `markConversationRead`
is fire-and-forget and `onRead` (= `loadConversations`) immediately issues the
reconcile fetch and suspends. Returns the card state after the segment and the
trace of requests issued during it. -/
def handleClickSync (read : Bool) (s : CardState) : CardState × List Ev :=
  let p :=
    match s.summary with
    | none => ({ s with loading := true }, [Ev.issue ApiCall.summarizeConv])
    | some _ => ({ s with expanded := !s.expanded }, [])
  if read then p
  else (p.1, p.2 ++ [Ev.issue ApiCall.markRead, Ev.issue ApiCall.fetchConversations])

/-- The whole async run of `handleSummarize` in `ConversationCard.tsx`, as a
state transformer given the outcome of `summarizeConversation(id)`:
`setLoading(true); try { result = await ...; setSummary(result);
await markConversationRead(id); onRead() } catch {..}; setLoading(false)`.
`result = none` models the call throwing (network failure or 30s timeout),
in which case the `catch` swallows the error and only `setLoading(false)`
still runs. -/
def handleSummarizeRun (s : CardState) (result : Option Summary) : CardState :=
  let s1 := { s with loading := true }
  let s2 :=
    match result with
    | some sum => { s1 with summary := some sum }
    | none => s1
  { s2 with loading := false }

/-- Event trace of a full successful `handleSummarize` run: summarize awaited,
then `markConversationRead` awaited, then `onRead` issues the reconcile
fetch. -/
def handleSummarizeTrace : List Ev :=
  [Ev.issue ApiCall.summarizeConv, Ev.complete ApiCall.summarizeConv,
   Ev.issue ApiCall.markRead, Ev.complete ApiCall.markRead,
   Ev.issue ApiCall.fetchConversations]

/-- Event trace of `handleMarkAllRead` in `SummaryPanel.tsx`:
`await markAllRead(); loadConversations()`. -/
def handleMarkAllReadTrace : List Ev :=
  [Ev.issue ApiCall.markAllRead, Ev.complete ApiCall.markAllRead,
   Ev.issue ApiCall.fetchConversations]

/-- Event trace of a successful `handleSummarizeAll` in `SummaryPanel.tsx`:
`await summarizeAll(); await loadConversations()`. -/
def handleSummarizeAllTrace : List Ev :=
  [Ev.issue ApiCall.summarizeAllCall, Ev.complete ApiCall.summarizeAllCall,
   Ev.issue ApiCall.fetchConversations]

/-- Whether a call mutates remote-store state (as opposed to the reconcile
fetch, which only reads). -/
def isMutation : ApiCall → Bool
  | ApiCall.summarizeConv => true
  | ApiCall.markRead => true
  | ApiCall.markAllRead => true
  | ApiCall.summarizeAllCall => true
  | ApiCall.fetchConversations => false

/-- Scans a trace keeping the mutations issued but not yet completed; `true`
iff every reconcile fetch in the trace is issued only when no mutation is
still outstanding. -/
def mutationsAwaited : List Ev → List ApiCall → Bool
  | [], _ => true
  | Ev.issue ApiCall.fetchConversations :: rest, pending =>
      pending.isEmpty && mutationsAwaited rest pending
  | Ev.issue c :: rest, pending =>
      if isMutation c then mutationsAwaited rest (c :: pending)
      else mutationsAwaited rest pending
  | Ev.complete c :: rest, pending => mutationsAwaited rest (pending.erase c)

/-- Every mutation issued before a reconcile fetch in the trace has been
awaited to completion before that fetch begins. -/
def awaitedBeforeReconcile (t : List Ev) : Bool :=
  mutationsAwaited t []

/-- The four visual states a card can render (preview / spinner / one-liner /
expanded details in `ConversationCard.tsx`). -/
inductive UiView
  | collapsedUnsummarized
  | loadingView
  | collapsedSummarized
  | expandedSummarized
deriving DecidableEq, Repr

/-- The view a card state renders: the spinner when `loading`, the
collapsed-unsummarized preview when `!summary && !loading`, and the summary
block (collapsed or expanded) when `summary` is set. -/
def uiView (s : CardState) : UiView :=
  if s.loading then UiView.loadingView
  else
    match s.summary with
    | none => UiView.collapsedUnsummarized
    | some _ => if s.expanded then UiView.expandedSummarized else UiView.collapsedSummarized

/-- Comparator relation of the reconcile's sort in `SummaryPanel.tsx`:
`(a, b) => b.last_activity - a.last_activity` orders `a` before `b` exactly
when `b.last_activity ≤ a.last_activity` (descending by activity). -/
def activityGE (a b : Conversation) : Prop :=
  b.last_activity ≤ a.last_activity

instance : DecidableRel activityGE := fun a b => Int.decLe b.last_activity a.last_activity

instance : IsTotal Conversation activityGE :=
  ⟨fun a b => le_total b.last_activity a.last_activity⟩

instance : IsTrans Conversation activityGE :=
  ⟨fun _ _ _ h1 h2 => le_trans h2 h1⟩

/-- The `.sort((a, b) => b.last_activity - a.last_activity)` call, modelled as
a comparison sort over the comparator's relation. -/
def sortByActivityDesc (l : List Conversation) : List Conversation :=
  List.insertionSort activityGE l

/-- Response of `GET /pet/conversations` (`fetchAllConversations`). Fields are
`Option` because the code defends against their absence with `|| ...`. -/
structure FetchResponse where
  conversations : Option (List Conversation)
  unread_count : Option Int
deriving DecidableEq, Repr

/-- JS `data.conversations || []`: an absent field falls back to `[]`; any
present array — even the empty one — is truthy and is kept. -/
def jsOrElseList (v : Option (List Conversation)) : List Conversation :=
  match v with
  | some l => l
  | none => []

/-- JS `data.unread_count || 0`: an absent field falls back to `0`, and a
present `0` is falsy so the fallback `0` is used — other ints are kept. -/
def jsOrElseInt (v : Option Int) : Int :=
  match v with
  | some n => if n = 0 then 0 else n
  | none => 0

/-- The React state of `SummaryPanel` relevant to the sync engine. -/
structure PanelState where
  conversations : List Conversation
  unreadCount : Int
  loading : Bool
  summarizingAll : Bool
deriving DecidableEq, Repr

/-- Initial panel state: `useState([])`, `useState(0)`, `useState(true)`,
`useState(false)`. -/
def initPanelState : PanelState :=
  { conversations := [], unreadCount := 0, loading := true, summarizingAll := false }

/-- Successful run of `loadConversations` in `SummaryPanel.tsx` applied to a
response: sort the returned collection by `last_activity` descending, replace
the mirror wholesale, set `unreadCount` from the server's own count field,
clear `loading`. -/
def loadConversations (s : PanelState) (resp : FetchResponse) : PanelState :=
  { s with
    conversations := sortByActivityDesc (jsOrElseList resp.conversations)
    unreadCount := jsOrElseInt resp.unread_count
    loading := false }

/-- Failing run of `loadConversations`: the `catch` logs and the only state
write that still happens is `setLoading(false)`. -/
def loadConversationsFailed (s : PanelState) : PanelState :=
  { s with loading := false }

/-- Electron main-process state (`main.ts`): the `summaryWindow` module-level
handle, the set of summary `BrowserWindow`s that exist and have not been
destroyed, and a fresh-id counter standing for `new BrowserWindow(...)`. -/
structure HostState where
  summaryWindow : Option Nat
  liveSummaryWindows : List Nat
  nextId : Nat
deriving DecidableEq, Repr

/-- Host state at `app.whenReady`: `summaryWindow = null`, no summary window
created yet. -/
def initHost : HostState :=
  { summaryWindow := none, liveSummaryWindows := [], nextId := 0 }

/-- `createSummaryWindow()`: if the handle is set, `show()`/`focus()` the
existing window and return without creating anything; otherwise construct a
new `BrowserWindow` and store its handle. -/
def createSummaryWindow (s : HostState) : HostState :=
  match s.summaryWindow with
  | some _ => s
  | none =>
      { s with
        summaryWindow := some s.nextId
        liveSummaryWindows := s.nextId :: s.liveSummaryWindows
        nextId := s.nextId + 1 }

/-- `closeSummaryWindow()`: if the handle is set, `close()` (destroy) that
window and null the handle; no-op when the handle is already absent. -/
def closeSummaryWindow (s : HostState) : HostState :=
  match s.summaryWindow with
  | some w =>
      { s with summaryWindow := none, liveSummaryWindows := s.liveSummaryWindows.erase w }
  | none => s

/-- The `ipcMain.on('toggle-summary')` handler: close if the handle is
present, else create. -/
def toggleSummary (s : HostState) : HostState :=
  match s.summaryWindow with
  | some _ => closeSummaryWindow s
  | none => createSummaryWindow s

/-- The three channel commands registered with `ipcMain.on`. -/
inductive HostCmd
  | openSummary
  | closeSummary
  | toggleSummaryCmd
deriving DecidableEq, Repr

/-- Dispatch of one delivered channel command on the single-threaded host
event loop. -/
def hostStep (s : HostState) : HostCmd → HostState
  | HostCmd.openSummary => createSummaryWindow s
  | HostCmd.closeSummary => closeSummaryWindow s
  | HostCmd.toggleSummaryCmd => toggleSummary s

/-- Run a sequence of channel commands from the initial host state. -/
def runHost (cmds : List HostCmd) : HostState :=
  cmds.foldl hostStep initHost

/-- Registry soundness: the live summary windows are exactly the ones the
`summaryWindow` handle points at. -/
def hostInv (s : HostState) : Prop :=
  s.liveSummaryWindows = s.summaryWindow.toList

/-- Messages a bridge capability sends over the command channel
(`preload.ts`: `ipcRenderer.send(...)`). -/
inductive ChannelMsg
  | openSummaryMsg
  | closeSummaryMsg
  | toggleSummaryMsg
deriving DecidableEq, Repr

/-- Invoking a method on `window.electronAPI`: sends the message when the
bridge object is present; member access on an absent bridge throws
(`Except.error`). -/
def callBridge (api : Option Unit) (m : ChannelMsg) : Except Unit (List ChannelMsg) :=
  match api with
  | some _ => Except.ok [m]
  | none => Except.error ()

/-- `handleClose` in `SummaryPanel.tsx`:
`if (window.electronAPI) { window.electronAPI.closeSummary() }`. -/
def summaryPanelHandleClose (api : Option Unit) : Except Unit (List ChannelMsg) :=
  if api.isSome then callBridge api ChannelMsg.closeSummaryMsg
  else Except.ok []

/-- `handleClick` in `BunnyPet.tsx`:
`if (window.electronAPI) { window.electronAPI.toggleSummary() };
setBouncing(true)`. Returns the messages sent and the new `bouncing` flag. -/
def bunnyHandleClick (api : Option Unit) : Except Unit (List ChannelMsg × Bool) :=
  match (if api.isSome then callBridge api ChannelMsg.toggleSummaryMsg else Except.ok []) with
  | Except.ok msgs => Except.ok (msgs, true)
  | Except.error e => Except.error e

/-- The companion's mood (`useState<'idle' | 'excited' | 'sleeping'>`). -/
inductive Mood
  | idle
  | excited
  | sleeping
deriving DecidableEq, Repr

/-- `BunnyPet` state touched by the badge poll. -/
structure BunnyState where
  unreadCount : Int
  mood : Mood
  bouncing : Bool
deriving DecidableEq, Repr

/-- Initial `BunnyPet` state: `useState(0)`, `useState('idle')`,
`useState(false)`. -/
def initBunny : BunnyState :=
  { unreadCount := 0, mood := Mood.idle, bouncing := false }

/-- Fixed bounce-timer length of the badge poll's `setTimeout`. -/
def bounceDurationMs : Nat := 2000

/-- Observable side effects of one `pollUnread` run: whether
`setBouncing(true)` fired and the timer it scheduled. -/
structure PollEffects where
  bounceTriggered : Bool
  bounceTimerMs : Option Nat
deriving DecidableEq, Repr

/-- One run of `pollUnread` in `BunnyPet.tsx`, given the outcome of
`fetchUnreadCount()` (`none` = the call threw). On success:
`setUnreadCount(count)`, then `count > 0` sets mood `excited`, sets
`bouncing` and schedules a 2000 ms reset, else sets mood `idle`.
On failure only `setMood('idle')` runs. -/
def pollUnread (s : BunnyState) (result : Option Int) : BunnyState × PollEffects :=
  match result with
  | some count =>
      if 0 < count then
        ({ unreadCount := count, mood := Mood.excited, bouncing := true },
         { bounceTriggered := true, bounceTimerMs := some bounceDurationMs })
      else
        ({ unreadCount := count, mood := Mood.idle, bouncing := s.bouncing },
         { bounceTriggered := false, bounceTimerMs := none })
  | none =>
      ({ unreadCount := s.unreadCount, mood := Mood.idle, bouncing := s.bouncing },
       { bounceTriggered := false, bounceTimerMs := none })

/-- `NotificationBadge`: `if (count <= 0) return null;` then renders
`count > 99 ? '99+' : count`. `none` models rendering nothing. -/
def notificationBadge (count : Int) : Option String :=
  if count ≤ 0 then none
  else some (if 99 < count then ("99+") else toString count)

/-- C1 counterexample: the claim that a further click while `loading = true`
issues no additional summarize call is false. A first click on a fresh
unsummarized (already-read) card leaves the card in the state
`summary = none, loading = true` with one summarize request outstanding, and
a second click in exactly that state issues one more summarize request —
`handleClick` gates on `!summary`, not on `loading`. -/
theorem c1_counterexample :
    ((handleClickSync true { summary := none, loading := false, expanded := false }).1
      = { summary := none, loading := true, expanded := false })
  ∧ ({ summary := none, loading := true, expanded := false } : CardState).loading = true
  ∧ (handleClickSync true { summary := none, loading := true, expanded := false }).2.count
      (Ev.issue ApiCall.summarizeConv) = 1 := by
  decide

/-- C1 amended: a click issues a summarize call exactly when the card's
`summary` is absent, independently of the `loading` flag — so re-entrant
clicks during an outstanding summarize (summary still `null`,
`loading = true`) do issue additional summarize calls; only a card whose
summary has arrived stops issuing them. -/
theorem c1_amended (read : Bool) (s : CardState) :
    Ev.issue ApiCall.summarizeConv ∈ (handleClickSync read s).2 ↔ s.summary = none := by
  obtain ⟨sum, l, e⟩ := s
  cases sum <;> cases read <;> simp [handleClickSync]

/-- C2 counterexample: the claim that every user-triggered mutation followed
by an explicit reconcile is awaited before the reconcile fetch begins is
false. Clicking an unread, unsummarized card issues the summarize request,
then the `markConversationRead` request, then — in the same synchronous
segment, with neither completed — the reconcile fetch. -/
theorem c2_counterexample :
    ((handleClickSync false { summary := none, loading := false, expanded := false }).2
      = [Ev.issue ApiCall.summarizeConv, Ev.issue ApiCall.markRead,
         Ev.issue ApiCall.fetchConversations])
  ∧ awaitedBeforeReconcile
      (handleClickSync false { summary := none, loading := false, expanded := false }).2 = false := by
  decide

/-- C2 amended: `handleMarkAllRead`, the successful `handleSummarize` run and
the successful `handleSummarizeAll` run each await their mutation to
completion before issuing the reconcile fetch, but the `markConversationRead`
issued directly by a click on an unread card is fire-and-forget: the
reconcile fetch begins in the same synchronous segment, before that mutation
completes, whatever the card's state. -/
theorem c2_amended :
    awaitedBeforeReconcile handleMarkAllReadTrace = true
  ∧ awaitedBeforeReconcile handleSummarizeTrace = true
  ∧ awaitedBeforeReconcile handleSummarizeAllTrace = true
  ∧ ∀ s : CardState, awaitedBeforeReconcile (handleClickSync false s).2 = false := by
  refine ⟨by decide, by decide, by decide, fun s => ?_⟩
  obtain ⟨sum, l, e⟩ := s
  cases sum <;> rfl

/-- C3: after every reconcile the mirror is sorted by `last_activity`
descending and is a permutation of the collection the remote store returned,
for any input ordering. -/
theorem c3_mirror_sorted_after_reconcile (s : PanelState) (resp : FetchResponse) :
    List.Sorted activityGE (loadConversations s resp).conversations
  ∧ (loadConversations s resp).conversations.Perm (jsOrElseList resp.conversations) :=
  ⟨List.sorted_insertionSort activityGE (jsOrElseList resp.conversations),
   List.perm_insertionSort activityGE (jsOrElseList resp.conversations)⟩

/-- C4: after a reconcile, `unreadCount` is exactly the `unread_count` the
remote store returned (hence non-negative whenever the store's count is);
it is a function of that field alone — never recomputed from the mirror's
conversations or the prior local state; it starts at 0 and a failed
reconcile leaves it untouched. -/
theorem c4_unreadCount_server_value :
    (∀ (s : PanelState) (resp : FetchResponse) (u : Int),
        resp.unread_count = some u → (loadConversations s resp).unreadCount = u)
  ∧ (∀ (s : PanelState) (resp : FetchResponse) (u : Int),
        resp.unread_count = some u → 0 ≤ u → 0 ≤ (loadConversations s resp).unreadCount)
  ∧ (∀ (s1 s2 : PanelState) (r1 r2 : FetchResponse),
        r1.unread_count = r2.unread_count →
        (loadConversations s1 r1).unreadCount = (loadConversations s2 r2).unreadCount)
  ∧ initPanelState.unreadCount = 0
  ∧ (∀ s : PanelState, (loadConversationsFailed s).unreadCount = s.unreadCount) := by
  refine ⟨fun s resp u h => ?_, fun s resp u h hu => ?_, fun s1 s2 r1 r2 h => ?_, rfl, fun s => rfl⟩
  · simp only [loadConversations, jsOrElseInt, h]
    split <;> omega
  · simp only [loadConversations, jsOrElseInt, h]
    split <;> omega
  · simp only [loadConversations, jsOrElseInt, h]

/-- C4 witness: a concrete reconcile whose response reports `unread_count = 3`
sets `unreadCount` to exactly 3, which is non-negative. -/
theorem c4_unreadCount_server_value_witness :
    (loadConversations initPanelState
      { conversations := some [], unread_count := some 3 }).unreadCount = 3
  ∧ 0 ≤ (loadConversations initPanelState
      { conversations := some [], unread_count := some 3 }).unreadCount :=
  ⟨c4_unreadCount_server_value.1 initPanelState
      { conversations := some [], unread_count := some 3 } 3 rfl,
   c4_unreadCount_server_value.2.1 initPanelState
      { conversations := some [], unread_count := some 3 } 3 rfl (by decide)⟩

/-- C5: the toggle handler flips the panel's visibility (present ↦ closed,
absent ↦ opened) as a function of the handle alone, so two toggles in
immediate succession restore the panel's prior visibility, from every host
state. -/
theorem c5_togglePanel_involutive_visibility (s : HostState) :
    (toggleSummary s).summaryWindow.isSome = !s.summaryWindow.isSome
  ∧ (toggleSummary (toggleSummary s)).summaryWindow.isSome = s.summaryWindow.isSome := by
  obtain ⟨sw, live, nid⟩ := s
  cases sw <;> simp [toggleSummary, createSummaryWindow, closeSummaryWindow]

/-- Each delivered channel command preserves the registry invariant that the
live summary windows are exactly those the handle points at. -/
theorem hostInv_step (s : HostState) (c : HostCmd) (h : hostInv s) : hostInv (hostStep s c) := by
  obtain ⟨sw, live, nid⟩ := s
  cases c <;> cases sw <;>
    simp_all [hostInv, hostStep, toggleSummary, createSummaryWindow, closeSummaryWindow]

/-- The registry invariant holds along any command sequence. -/
theorem hostInv_run (cmds : List HostCmd) :
    ∀ s : HostState, hostInv s → hostInv (cmds.foldl hostStep s) := by
  induction cmds with
  | nil => exact fun s h => h
  | cons c rest ih => exact fun s h => ih (hostStep s c) (hostInv_step s c h)

/-- C7: no sequence of channel commands ever yields two live summary windows
(at most one live handle per kind); `createSummaryWindow` with a present
handle only re-focuses the existing window and changes nothing, and
`closeSummaryWindow` with an absent handle is a no-op. -/
theorem c7_at_most_one_panel :
    (∀ cmds : List HostCmd, (runHost cmds).liveSummaryWindows.length ≤ 1)
  ∧ (∀ s : HostState, s.summaryWindow.isSome → createSummaryWindow s = s)
  ∧ (∀ s : HostState, s.summaryWindow = none → closeSummaryWindow s = s) := by
  refine ⟨fun cmds => ?_, fun s h => ?_, fun s h => ?_⟩
  · have hinv : hostInv (runHost cmds) := hostInv_run cmds initHost rfl
    rw [hostInv] at hinv
    rw [hinv]
    cases (runHost cmds).summaryWindow <;> simp
  · obtain ⟨sw, live, nid⟩ := s
    cases sw with
    | none => simp at h
    | some w => rfl
  · obtain ⟨sw, live, nid⟩ := s
    cases sw with
    | none => rfl
    | some w => simp at h

/-- C7 witness: after two `open-summary` commands and a toggle there is at
most one live summary window; re-opening with a present handle and closing
with an absent handle are both identities on a concrete state. -/
theorem c7_at_most_one_panel_witness :
    (runHost [HostCmd.openSummary, HostCmd.openSummary,
              HostCmd.toggleSummaryCmd]).liveSummaryWindows.length ≤ 1
  ∧ createSummaryWindow { summaryWindow := some 0, liveSummaryWindows := [0], nextId := 1 }
      = { summaryWindow := some 0, liveSummaryWindows := [0], nextId := 1 }
  ∧ closeSummaryWindow initHost = initHost :=
  ⟨c7_at_most_one_panel.1 [HostCmd.openSummary, HostCmd.openSummary, HostCmd.toggleSummaryCmd],
   c7_at_most_one_panel.2.1 { summaryWindow := some 0, liveSummaryWindows := [0], nextId := 1 }
     (by decide),
   c7_at_most_one_panel.2.2 initHost rfl⟩

/-- C6: when `summarizeConversation` fails (network error or 30 s timeout),
`handleSummarize` leaves `summary` exactly as it was, clears `loading`, and a
card whose summary was `null` renders the collapsed-unsummarized view
again. -/
theorem c6_summarize_failure_preserves (s : CardState) :
    (handleSummarizeRun s none).summary = s.summary
  ∧ (handleSummarizeRun s none).loading = false
  ∧ (s.summary = none → uiView (handleSummarizeRun s none) = UiView.collapsedUnsummarized) := by
  refine ⟨rfl, rfl, fun h => ?_⟩
  simp [handleSummarizeRun, uiView, h]

/-- C6 witness: a failing summarize on a loading, unsummarized card leaves
`summary = null` and returns the card to the collapsed-unsummarized view. -/
theorem c6_summarize_failure_preserves_witness :
    (handleSummarizeRun { summary := none, loading := true, expanded := false } none).summary = none
  ∧ uiView (handleSummarizeRun { summary := none, loading := true, expanded := false } none)
      = UiView.collapsedUnsummarized :=
  ⟨(c6_summarize_failure_preserves { summary := none, loading := true, expanded := false }).1,
   (c6_summarize_failure_preserves { summary := none, loading := true, expanded := false }).2.2 rfl⟩

/-- C8: with the capability bridge absent, the panel's close handler and the
companion's click handler send no channel message and do not throw (the
click handler still sets the local bounce flag); with the bridge present each
sends exactly its one command. -/
theorem c8_bridge_absent_noop :
    summaryPanelHandleClose none = Except.ok []
  ∧ bunnyHandleClick none = Except.ok ([], true)
  ∧ summaryPanelHandleClose (some ()) = Except.ok [ChannelMsg.closeSummaryMsg]
  ∧ bunnyHandleClick (some ()) = Except.ok ([ChannelMsg.toggleSummaryMsg], true) :=
  ⟨rfl, rfl, rfl, rfl⟩

/-- C9 counterexample: the claim that mood/bounce transitions fire only when
the counter value changes between successive polls is false. A first poll
observing count 1 puts the companion in the excited, bouncing state with
`unreadCount = 1`, and the next poll observing the same value 1 re-triggers
`setBouncing(true)` and its 2000 ms timer all over again. -/
theorem c9_counterexample :
    ((pollUnread initBunny (some 1)).1
      = { unreadCount := 1, mood := Mood.excited, bouncing := true })
  ∧ (pollUnread { unreadCount := 1, mood := Mood.excited, bouncing := true } (some 1)).2.bounceTriggered
      = true := by
  decide

/-- C9 amended: the mood set by each badge poll is a pure function of that
poll's observed count (positive ↦ excited, zero ↦ idle, fetch failure ↦
idle), and the bounce — bounded by a fixed 2000 ms timer per trigger — is
re-triggered by every poll observing a positive count, regardless of whether
the value changed since the previous observation. -/
theorem c9_amended (s : BunnyState) (c : Int) :
    ((pollUnread s (some c)).1.mood = if 0 < c then Mood.excited else Mood.idle)
  ∧ ((pollUnread s (some c)).1.unreadCount = c)
  ∧ ((pollUnread s (some c)).2.bounceTriggered = decide (0 < c))
  ∧ ((pollUnread s (some c)).2.bounceTimerMs = if 0 < c then some bounceDurationMs else none)
  ∧ ((pollUnread s none).1.mood = Mood.idle) := by
  by_cases h : 0 < c <;> simp [pollUnread, h]

/-- C10: the badge renders nothing for every count ≤ 0, the exact count for
every count in 1..99, and the literal "99+" for every count above 99. -/
theorem c10_badge_rendering (c : Int) :
    (c ≤ 0 → notificationBadge c = none)
  ∧ (1 ≤ c → c ≤ 99 → notificationBadge c = some (toString c))
  ∧ (99 < c → notificationBadge c = some ("99+")) := by
  refine ⟨fun h => ?_, fun h1 h2 => ?_, fun h => ?_⟩
  · simp [notificationBadge, h]
  · simp only [notificationBadge]
    rw [if_neg (by omega), if_neg (by omega)]
  · simp only [notificationBadge]
    rw [if_neg (by omega), if_pos h]

/-- C10 witness: concrete counts in each band — -3 renders nothing, 42
renders "42", 100 renders "99+". -/
theorem c10_badge_rendering_witness :
    notificationBadge (-3) = none
  ∧ notificationBadge 42 = some (toString (42 : Int))
  ∧ notificationBadge 100 = some ("99+") :=
  ⟨(c10_badge_rendering (-3)).1 (by decide),
   (c10_badge_rendering 42).2.1 (by decide) (by decide),
   (c10_badge_rendering 100).2.2 (by decide)⟩

end TamaBotchi
